import Mathlib

/-!
Verification of the cryptopump persistence layer (src/mysql/mysql.go).

The Go functions are shallowly embedded as pure Lean functions.  A stored
procedure invocation `sessionData.Db.Query(...)` is modelled by an input of
type `Except String ...`: `Except.error e` is the invocation-error branch
(the driver returned an error and no row cursor was obtained), and
`Except.ok rows` is the success branch, where `rows` lists the result rows
in arrival order.  Each row is presented the way `rows.Scan` sees it:
either the decoded scan targets, or a decode error (`Except.error`) that
leaves the scan targets at their previous values.  Go float64 columns are
modelled as exact rationals; Go named return values start at their zero
values, as in the source.
-/

/-- Error text produced by database/sql when a NULL column is scanned into a
plain float64 target (used by the convertAssign model below). -/
def nullToFloat64Err : String := "sql: converting NULL to float64 is unsupported"

/-- Model of the Go struct sql.NullFloat64: a validity flag plus the decoded
value.  The zero value of the struct has valid = false and float64 = 0. -/
structure NullFloat64 where
  valid : Bool
  float64 : ℚ
deriving DecidableEq, Repr

/-- Zero value of sql.NullFloat64, as produced by the var declarations in the
source. -/
def NullFloat64.zero : NullFloat64 := ⟨false, 0⟩

/-- Scanning a nullable float column into a sql.NullFloat64 target: a NULL
sets valid = false and float64 = 0, a value v sets valid = true and
float64 = v.  This scan never fails. -/
def scanNullFloat64 : Option ℚ → NullFloat64
  | none => ⟨false, 0⟩
  | some v => ⟨true, v⟩

/-- Result of GetSessionStatus (mysql.go lines 431-467), instrumented with
cursor accounting: cursorOpened records whether the query handed out a row
cursor, and cursorCloses counts how many times rows.Close ran before the
function returned. -/
structure SessionStatusResult where
  threadID : String
  err : Option String
  cursorOpened : Bool
  cursorCloses : Nat
deriving DecidableEq, Repr

/-- Row loop of GetSessionStatus (mysql.go lines 455-465).  Each row scans
into the named return threadID (persisting across iterations) and a fresh
local status.  When status is true the function returns from inside the
loop; in Go the statement `defer rows.Close()` on line 463 has not executed
yet on that path, so no close is registered and the cursor is never closed.
When the loop ends normally, line 463 registers the close and line 465
returns, so the cursor is closed exactly once.  A scan error leaves threadID
unchanged and status at its fresh zero value false. -/
def getSessionStatusLoop :
    List (Except String (String × Bool)) → String → SessionStatusResult
  | [], tid => ⟨tid, none, true, 1⟩
  | r :: rest, tid =>
    match r with
    | .ok (t, status) =>
      if status then ⟨t, none, true, 0⟩
      else getSessionStatusLoop rest t
    | .error _ => getSessionStatusLoop rest tid

/-- Model of GetSessionStatus (mysql.go lines 431-467).  On the
invocation-error branch the function logs and returns ("", err) without a
cursor ever being opened. -/
def GetSessionStatus
    (q : Except String (List (Except String (String × Bool)))) :
    SessionStatusResult :=
  match q with
  | .error e => ⟨"", some e, false, 0⟩
  | .ok rows => getSessionStatusLoop rows ""

/-- Result of a write-only operation such as SaveOrder, instrumented with the
same cursor accounting as SessionStatusResult. -/
structure ExecResult where
  err : Option String
  cursorOpened : Bool
  cursorCloses : Nat
deriving DecidableEq, Repr

/-- Model of SaveOrder (mysql.go lines 158-204).  On a query error the
function logs and returns the error with no cursor opened; on success the
statement `defer rows.Close()` on line 200 registers the close and the
return on line 202 runs it, so the cursor is closed exactly once. -/
def SaveOrder (q : Except String Unit) : ExecResult :=
  match q with
  | .error e => ⟨some e, false, 0⟩
  | .ok _ => ⟨none, true, 1⟩

/-- C1: the claim states that every operation closes an opened row cursor
exactly once on every exit path, and in particular that GetSessionStatus
closes it on the return taken from inside the row loop when a row has a
true status flag.  SaveOrder does satisfy the discipline (conjuncts 3-4),
and so does GetSessionStatus on its invocation-error branch (conjunct 2)
and on normal loop completion (conjunct 5); but on the early return taken
when a status flag is true the cursor was opened and is closed zero times,
not once (conjunct 1), because the return on line 459 runs before the
deferred close on line 463 is registered.  This contradicts the stated
resource discipline: the code leaks the cursor on that path. -/
theorem GetSessionStatus_cursor_leak :
    (GetSessionStatus (.ok [.ok ("T1", true)]) =
      ⟨"T1", none, true, 0⟩) ∧
    (GetSessionStatus (.error "driver: bad connection") =
      ⟨"", some "driver: bad connection", false, 0⟩) ∧
    (SaveOrder (.ok ()) = ⟨none, true, 1⟩) ∧
    (SaveOrder (.error "driver: bad connection") =
      ⟨some "driver: bad connection", false, 0⟩) ∧
    (GetSessionStatus (.ok [.ok ("T1", false), .ok ("T2", false)]) =
      ⟨"T2", none, true, 1⟩) := by
  refine ⟨rfl, rfl, rfl, rfl, rfl⟩

/-- Pool sizing settings applied by configureConnectionPool.  The Go method
SetConnMaxLifetime takes a time.Duration, an int64 counted in nanoseconds,
so connMaxLifetimeNanos records the duration in nanoseconds. -/
structure PoolSettings where
  maxIdleConns : Nat
  maxOpenConns : Nat
  connMaxLifetimeNanos : Int
deriving DecidableEq, Repr

/-- Model of configureConnectionPool (mysql.go lines 104-121): it calls
SetMaxIdleConns(5), SetMaxOpenConns(7) and SetConnMaxLifetime(1800).  The
untyped literal 1800 is converted to the time.Duration value 1800, which is
1800 nanoseconds, although the comment above the call says the argument is
in seconds.  Both InitTCPConnectionPool (line 150) and
InitSocketConnectionPool (line 95) apply these settings after a successful
sql.Open. -/
def configureConnectionPool : PoolSettings := ⟨5, 7, 1800⟩

/-- C2: the claim states that after successful pool construction the sizing
policy is maximum idle connections = 5, maximum open connections = 7 and
maximum connection lifetime = 1800 seconds.  The idle and open bounds hold,
but SetConnMaxLifetime receives the bare literal 1800, which as a
time.Duration is 1800 nanoseconds, and 1800 seconds would be
1800000000000 nanoseconds; so the configured lifetime is not 1800 seconds,
contradicting the comment in the source that announces seconds. -/
theorem configureConnectionPool_lifetime_not_seconds :
    configureConnectionPool.maxIdleConns = 5 ∧
    configureConnectionPool.maxOpenConns = 7 ∧
    configureConnectionPool.connMaxLifetimeNanos = 1800 ∧
    configureConnectionPool.connMaxLifetimeNanos ≠ 1800 * 1000000000 := by
  refine ⟨rfl, rfl, rfl, by decide⟩

/-- Modelled from the spec: functions.MustGetenv (package functions of this
repository, not under src/) reads a required environment variable; the spec
says a required configuration value that is absent is a fatal
misconfiguration and the process aborts immediately.  Absence is modelled
as none propagated to the caller of the initialization routine. -/
def MustGetenv (env : String → Option String) (k : String) : Option String :=
  env k

/-- Model of InitSocketConnectionPool (mysql.go lines 67-100), up to the
dbURI value handed to sql.Open.  The environment is a map from variable
names to optionally present values, as in os.LookupEnv.  socketDir is
DB_SOCKET_DIR when set and the literal "/cloudsql" otherwise (lines 80-83);
dbURI is built on line 85 by
fmt.Sprintf with format "%s:%s@unix(/%s/%s)/%s?parseTime=true" applied to
dbUser, dbPwd, socketDir, instanceConnectionName and dbName.  The result is
none when a required variable is absent. -/
def InitSocketConnectionPoolURI (env : String → Option String) :
    Option String :=
  match MustGetenv env "DB_USER", MustGetenv env "DB_PASS",
      MustGetenv env "INSTANCE_CONNECTION_NAME", MustGetenv env "DB_NAME" with
  | some dbUser, some dbPwd, some instanceConnectionName, some dbName =>
    let socketDir := match env "DB_SOCKET_DIR" with
      | some s => s
      | none => "/cloudsql"
    some (dbUser ++ ":" ++ dbPwd ++ "@unix(/" ++ socketDir ++ "/" ++
      instanceConnectionName ++ ")/" ++ dbName ++ "?parseTime=true")
  | _, _, _, _ => none

/-- Environment in which the four variables required by the socket pool are
set and every other variable, in particular DB_TCP_HOST and DB_SOCKET_DIR,
is unset. -/
def socketEnv (u p i d : String) : String → Option String := fun k =>
  if k = "DB_USER" then some u
  else if k = "DB_PASS" then some p
  else if k = "INSTANCE_CONNECTION_NAME" then some i
  else if k = "DB_NAME" then some d
  else none

/-- Helper: merging the literal pieces around the default socket directory.
Since the default socket directory "/cloudsql" itself begins with a slash
and the format string already places a slash before it, the socket path
begins with two slashes. -/
theorem append_around_cloudsql (a : String) :
    ((a ++ "@unix(/") ++ "/cloudsql") ++ "/" = a ++ "@unix(//cloudsql/" := by
  rw [String.append_assoc, String.append_assoc]; rfl

/-- C4 counterexample: with DB_TCP_HOST and DB_SOCKET_DIR unset and the
required variables set to user, pass, instance and dbname, the dbURI built
by InitSocketConnectionPool is not the claimed
string with a single slash before cloudsql. -/
theorem InitSocketConnectionPoolURI_not_single_slash :
    InitSocketConnectionPoolURI (socketEnv "user" "pass" "instance" "dbname")
      ≠ some "user:pass@unix(/cloudsql/instance)/dbname?parseTime=true" := by
  decide

/-- C4 amended: when DB_TCP_HOST and DB_SOCKET_DIR are unset,
InitSocketConnectionPool builds the data-source string
user:pass@unix(//cloudsql/instance)/dbname?parseTime=true: the format
string contributes one slash inside unix( and the default socket directory
"/cloudsql" carries its own leading slash, so the socket path begins with
two slashes before cloudsql, then one slash and the instance-connection
identifier. -/
theorem InitSocketConnectionPoolURI_double_slash (u p i d : String) :
    InitSocketConnectionPoolURI (socketEnv u p i d) =
      some (u ++ ":" ++ p ++ "@unix(//cloudsql/" ++ i ++ ")/" ++ d ++
        "?parseTime=true") := by
  simp only [InitSocketConnectionPoolURI, MustGetenv, socketEnv]
  simp +decide only [if_true, if_false]
  rw [← append_around_cloudsql]


/-- Model of Go math.Round on exact rationals: rounding half away from zero,
as documented for the Go standard library function used on mysql.go lines
1103, 1104 and 1289. -/
def roundGo (x : ℚ) : ℚ :=
  if x < 0 then -((⌊-x + 1/2⌋ : ℤ) : ℚ) else ((⌊x + 1/2⌋ : ℤ) : ℚ)

/-- Value of a list of decimal digit characters. -/
def digitsToNat (cs : List Char) : Nat :=
  cs.foldl (fun a c => a * 10 + (c.toNat - 48)) 0

/-- Scaled-integer reading of an unsigned decimal numeral: the digits before
and after the point are combined into one integer mantissa, returned
together with the number of fraction digits. -/
def parseScaledCore (cs : List Char) : Int × Nat :=
  let intPart := cs.takeWhile (fun c => c != '.')
  let fracPart := (cs.dropWhile (fun c => c != '.')).drop 1
  ((digitsToNat intPart * 10 ^ fracPart.length + digitsToNat fracPart : Nat),
    fracPart.length)

/-- Scaled-integer reading of a signed decimal numeral. -/
def parseScaled (s : String) : Int × Nat :=
  match s.data with
  | '-' :: cs => (-(parseScaledCore cs).1, (parseScaledCore cs).2)
  | '+' :: cs => parseScaledCore cs
  | cs => parseScaledCore cs

/-- Modelled from the spec: functions.StrToFloat64 (package functions of
this repository, not under src/) parses a textually encoded number to a
floating-point value; the spec says columns that are textually encoded
numbers are parsed from text to floating point.  The parse is modelled
exactly on decimal numerals, with the value returned as an exact
rational. -/
def StrToFloat64 (s : String) : ℚ :=
  ((parseScaled s).1 : ℚ) / (10 : ℚ) ^ (parseScaled s).2

/-- Projection of the Go struct types.Order onto the four fields assigned by
the row loop of GetThreadTransactionByThreadID (mysql.go lines 1101-1104). -/
structure Order where
  orderID : Int
  executedQuantity : ℚ
  cumulativeQuoteQuantity : ℚ
  price : ℚ
deriving DecidableEq, Repr

/-- Body of one iteration of the row loop of GetThreadTransactionByThreadID
(mysql.go lines 1101-1104): the executed quantity is parsed and not rounded,
the cumulative quote quantity is parsed, multiplied by 100, rounded and
divided by 100, and the price is parsed, multiplied by 1000, rounded and
divided by 1000. -/
def decodeThreadTransactionRow
    (orderID : Int) (cumulativeQuoteQty price executedQuantity : String) :
    Order :=
  { orderID := orderID
    executedQuantity := StrToFloat64 executedQuantity
    cumulativeQuoteQuantity := roundGo (StrToFloat64 cumulativeQuoteQty * 100) / 100
    price := roundGo (StrToFloat64 price * 1000) / 1000 }

/-- Row loop of GetThreadTransactionByThreadID (mysql.go lines 1095-1107).
The locals orderID, cumulativeQuoteQty, price and executedQuantity are
declared fresh in each iteration, so a scan error leaves them at their zero
values 0 and "", and the loop body still overwrites every field of the
shared order value and appends it.  The error variable is overwritten by
every iteration. -/
def getThreadTransactionByThreadIDLoop :
    List (Except String (Int × String × String × String)) →
      List Order → Option String → List Order × Option String
  | [], acc, e => (acc, e)
  | r :: rest, acc, _ =>
    match r with
    | .ok (oid, c, p, q) =>
      getThreadTransactionByThreadIDLoop rest
        (acc ++ [decodeThreadTransactionRow oid c p q]) none
    | .error e =>
      getThreadTransactionByThreadIDLoop rest
        (acc ++ [decodeThreadTransactionRow 0 "" "" ""]) (some e)

/-- Model of GetThreadTransactionByThreadID (mysql.go lines 1068-1113).  On
the invocation-error branch the function returns a nil sequence and the
error; otherwise it runs the row loop and returns the accumulated sequence
together with the error value left by the last iteration. -/
def GetThreadTransactionByThreadID
    (q : Except String (List (Except String (Int × String × String × String)))) :
    List Order × Option String :=
  match q with
  | .error e => ([], some e)
  | .ok rows => getThreadTransactionByThreadIDLoop rows [] none

/-- C6: for every row decoded by GetThreadTransactionByThreadID, the textual
cumulative quote quantity is parsed and rounded to 2 decimal places, the
textual price is parsed and rounded to 3 decimal places, and the executed
quantity is parsed but not rounded.  The first conjunct ties the returned
sequence to the per-field formulas; the remaining conjuncts check the
claimed numerals: "12.34567" becomes 12.35 as a cumulative quote quantity,
"100.12345" becomes 100.123 as a price, and "12.34567" passes through as an
executed quantity with all five decimals intact. -/
theorem GetThreadTransactionByThreadID_rounding :
    (∀ oid c p q,
      GetThreadTransactionByThreadID (.ok [.ok (oid, c, p, q)]) =
        ([{ orderID := oid
            executedQuantity := StrToFloat64 q
            cumulativeQuoteQuantity := roundGo (StrToFloat64 c * 100) / 100
            price := roundGo (StrToFloat64 p * 1000) / 1000 }], none)) ∧
    ((decodeThreadTransactionRow 7 "12.34567" "100.12345" "12.34567").cumulativeQuoteQuantity
      = 12.35) ∧
    ((decodeThreadTransactionRow 7 "12.34567" "100.12345" "12.34567").price
      = 100.123) ∧
    ((decodeThreadTransactionRow 7 "12.34567" "100.12345" "12.34567").executedQuantity
      = 12.34567) := by
  refine ⟨fun oid c p q => rfl, ?_, ?_, ?_⟩ <;>
    · rw [decodeThreadTransactionRow]
      rw [StrToFloat64, show parseScaled "12.34567" = (1234567, 5) from by decide,
        StrToFloat64, show parseScaled "100.12345" = (10012345, 5) from by decide]
      norm_num [roundGo]

/-- Order appended by one iteration of the GetThreadTransactionByThreadID
row loop for a given scan outcome: a successful scan decodes its targets,
and after a failed scan the loop body still builds an order from the fresh
zero-valued locals and appends it. -/
def decodeScanOutcome
    (r : Except String (Int × String × String × String)) : Order :=
  match r with
  | .ok (oid, c, p, q) => decodeThreadTransactionRow oid c p q
  | .error _ => decodeThreadTransactionRow 0 "" "" ""

/-- Error value produced by scanning one row: none for a successful scan and
the decode error for a failed one. -/
def scanErrOf (r : Except String (Int × String × String × String)) :
    Option String :=
  match r with
  | .ok _ => none
  | .error e => some e

/-- Error threading of the GetThreadTransactionByThreadID row loop: each
iteration overwrites the error variable with the scan outcome of its row. -/
def loopScanErr :
    List (Except String (Int × String × String × String)) →
      Option String → Option String
  | [], e => e
  | r :: rest, _ => loopScanErr rest (scanErrOf r)

/-- Error threading computes the scan outcome of the last processed row,
with the initial error surviving only when there is no row at all. -/
theorem loopScanErr_eq_getLastD
    (rows : List (Except String (Int × String × String × String)))
    (e0 : Option String) :
    loopScanErr rows e0 = (rows.map scanErrOf).getLastD e0 := by
  induction rows generalizing e0 with
  | nil => rfl
  | cons r rest ih =>
    rw [loopScanErr, ih, List.map_cons, List.getLastD_cons]

/-- Characterization of the GetThreadTransactionByThreadID row loop: it
appends one decoded order per processed row, in arrival order, and the
error value it carries out is the scan outcome of the last processed row,
each iteration having overwritten the error of the previous one. -/
theorem getThreadTransactionByThreadIDLoop_eq
    (rows : List (Except String (Int × String × String × String)))
    (acc : List Order) (e0 : Option String) :
    getThreadTransactionByThreadIDLoop rows acc e0 =
      (acc ++ rows.map decodeScanOutcome, loopScanErr rows e0) := by
  induction rows generalizing acc e0 with
  | nil => simp [getThreadTransactionByThreadIDLoop, loopScanErr]
  | cons r rest ih =>
    cases r with
    | ok d =>
      obtain ⟨oid, c, p, q⟩ := d
      rw [getThreadTransactionByThreadIDLoop, ih, loopScanErr]
      simp [decodeScanOutcome, scanErrOf]
    | error e =>
      rw [getThreadTransactionByThreadIDLoop, ih, loopScanErr]
      simp [decodeScanOutcome, scanErrOf]

/-- C9: in GetThreadTransactionByThreadID, rows successfully decoded and
appended before a failing row remain in the returned sequence, and the
error value returned to the caller is the decode outcome of the last
processed row, each iteration overwriting the error of the previous one.
Conjunct 1: with a failing row after a prefix of successful rows, the first
entries of the returned sequence are exactly the decodes of the successful
prefix.  Conjunct 2: whatever came before, the returned error is the scan
outcome of the last row, so a decode failure in the middle is masked by a
later successful row and surfaces only when the failing row is the last.
Conjunct 3: a concrete run with one good row then one failing row keeps the
good decode and returns the failing error. -/
theorem GetThreadTransactionByThreadID_partial_results :
    (∀ (pre : List (Int × String × String × String)) (e : String)
        (post : List (Except String (Int × String × String × String))),
      (GetThreadTransactionByThreadID
          (.ok (pre.map Except.ok ++ Except.error e :: post))).1.take pre.length =
        pre.map (fun r => decodeThreadTransactionRow r.1 r.2.1 r.2.2.1 r.2.2.2)) ∧
    (∀ (rows : List (Except String (Int × String × String × String)))
        (r : Except String (Int × String × String × String)),
      (GetThreadTransactionByThreadID (.ok (rows ++ [r]))).2 = scanErrOf r) ∧
    (GetThreadTransactionByThreadID
        (.ok [.ok (1, "9.99", "8.88", "7.77"), .error "scan failure"]) =
      ([decodeThreadTransactionRow 1 "9.99" "8.88" "7.77",
        decodeThreadTransactionRow 0 "" "" ""], some "scan failure")) := by
  refine ⟨?_, ?_, rfl⟩
  · intro pre e post
    rw [GetThreadTransactionByThreadID, getThreadTransactionByThreadIDLoop_eq]
    simp only [List.nil_append, List.map_append, List.map_map]
    rw [List.take_left' (by simp)]
    simp [decodeScanOutcome, Function.comp]
  · intro rows r
    rw [GetThreadTransactionByThreadID, getThreadTransactionByThreadIDLoop_eq,
      loopScanErr_eq_getLastD]
    simp [List.getLastD_concat]

/-- Row loop of GetThreadTransactionDistinct (mysql.go lines 755-772).  Each
row scans its pair into the named returns; the filesystem is then probed
for a file named threadID plus ".lock" via os.Stat, whose presence is given
by the lockExists oracle.  A stat error, meaning the lock file is absent,
breaks out of the loop keeping the freshly scanned pair; otherwise both
named returns are reset to empty strings and scanning continues. -/
def getThreadTransactionDistinctLoop (lockExists : String → Bool) :
    List (String × String) → String × String → String × String
  | [], acc => acc
  | (t, s) :: rest, _ =>
    if lockExists t then getThreadTransactionDistinctLoop lockExists rest ("", "")
    else (t, s)

/-- Model of GetThreadTransactionDistinct (mysql.go lines 731-778).  On the
invocation-error branch the function returns two empty strings and the
error; otherwise it runs the row loop starting from the zero values of the
named returns and returns the resulting pair.  The inner os.Stat error is
shadowed, so the error returned on the success branch is the one left by
the scans, none here since rows are presented already decoded. -/
def GetThreadTransactionDistinct (lockExists : String → Bool)
    (q : Except String (List (String × String))) :
    String × String × Option String :=
  match q with
  | .error e => ("", "", some e)
  | .ok rows =>
    let p := getThreadTransactionDistinctLoop lockExists rows ("", "")
    (p.1, p.2, none)

/-- The row loop returns the first row whose lock file does not exist and
the empty pair when every lock file exists or there is no row. -/
theorem getThreadTransactionDistinctLoop_eq_find
    (lockExists : String → Bool) (rows : List (String × String)) :
    getThreadTransactionDistinctLoop lockExists rows ("", "") =
      ((rows.find? fun r => !lockExists r.1).getD ("", "")) := by
  induction rows with
  | nil => rfl
  | cons head tail ih =>
    obtain ⟨t, s⟩ := head
    by_cases h : lockExists t
    · rw [getThreadTransactionDistinctLoop, if_pos h, ih,
        List.find?_cons_of_neg _ (by simp [h])]
    · rw [getThreadTransactionDistinctLoop, if_neg h,
        List.find?_cons_of_pos _ (by simp [h])]
      rfl

/-- C5: GetThreadTransactionDistinct stops at the first scanned row whose
lock file does not exist and returns that pair; rows whose lock file exists
reset the candidate to empty strings, so when every lock file exists, or
there is no row, the result is the empty pair.  Conjunct 1 is the general
first-eligible-match characterization; conjunct 2 is the particular case of
rows [(T1,S1),(T2,S2)] with T1.lock present and T2.lock absent, which
yields (T2,S2); conjunct 3 has both lock files present, yielding the empty
pair. -/
theorem GetThreadTransactionDistinct_first_unlocked :
    (∀ (lockExists : String → Bool) (rows : List (String × String)),
      GetThreadTransactionDistinct lockExists (.ok rows) =
        (((rows.find? fun r => !lockExists r.1).getD ("", "")).1,
          ((rows.find? fun r => !lockExists r.1).getD ("", "")).2, none)) ∧
    (GetThreadTransactionDistinct (fun t => t == "T1")
        (.ok [("T1", "S1"), ("T2", "S2")]) = ("T2", "S2", none)) ∧
    (GetThreadTransactionDistinct (fun _ => true)
        (.ok [("T1", "S1"), ("T2", "S2")]) = ("", "", none)) := by
  refine ⟨fun lockExists rows => ?_, by decide, rfl⟩
  rw [GetThreadTransactionDistinct]
  simp only [getThreadTransactionDistinctLoop_eq_find]

/-- One execution of rows.Scan into the three plain float64 targets of
GetProfit (mysql.go line 1181).  The database/sql conversion assigns the
targets in positional order and stops at the first NULL, which cannot be
converted into a plain float64: that target and the later ones keep their
previous values and the scan returns an error. -/
def scanFloat3 (st : ℚ × ℚ × ℚ × Option String)
    (row : Option ℚ × Option ℚ × Option ℚ) : ℚ × ℚ × ℚ × Option String :=
  match st, row with
  | (p, pn, pct, _), (a, b, c) =>
    match a with
    | none => (p, pn, pct, some nullToFloat64Err)
    | some va =>
      match b with
      | none => (va, pn, pct, some nullToFloat64Err)
      | some vb =>
        match c with
        | none => (va, vb, pct, some nullToFloat64Err)
        | some vc => (va, vb, vc, none)

/-- Model of GetProfit (mysql.go lines 1153-1187).  The function declares
sql.NullFloat64 wrappers for NULL handling but the row loop on line 1181
scans into the plain float64 named returns profit, profitNet and
percentage, so the wrappers are used only on the invocation-error branch,
where their zero values 0 are returned with the error.  On the success
branch the loop is folded over the rows and the function returns profit and
profitNet unscaled, percentage multiplied by 100, and the error left by the
last scan. -/
def GetProfit (q : Except String (List (Option ℚ × Option ℚ × Option ℚ))) :
    ℚ × ℚ × ℚ × Option String :=
  match q with
  | .error e =>
    (NullFloat64.zero.float64, NullFloat64.zero.float64,
      NullFloat64.zero.float64, some e)
  | .ok rows =>
    let st := rows.foldl scanFloat3 (0, 0, 0, none)
    (st.1, st.2.1, st.2.2.1 * 100, st.2.2.2)

/-- Model of GetProfitByThreadID (mysql.go lines 1116-1150).  The row loop
on line 1143 scans into the two sql.NullFloat64 wrappers, so a NULL simply
invalidates the wrapper and its Float64 field reads as 0; the scan never
fails.  The function returns the fiat field unscaled and the percentage
field multiplied by 100 (line 1148). -/
def GetProfitByThreadID (q : Except String (List (Option ℚ × Option ℚ))) :
    ℚ × ℚ × Option String :=
  match q with
  | .error e => (NullFloat64.zero.float64, NullFloat64.zero.float64, some e)
  | .ok rows =>
    let w := rows.foldl
      (fun _ r => (scanNullFloat64 r.1, scanNullFloat64 r.2))
      (NullFloat64.zero, NullFloat64.zero)
    (w.1.float64, w.2.float64 * 100, none)

/-- Model of GetThreadAmount (mysql.go lines 1258-1291).  The row loop on
line 1284 scans into a sql.NullFloat64 wrapper, so a NULL invalidates the
wrapper and its Float64 field reads as 0; the returned amount on line 1289
is math.Round(amount times 100) divided by 100. -/
def GetThreadAmount (q : Except String (List (Option ℚ))) :
    ℚ × Option String :=
  match q with
  | .error e => (NullFloat64.zero.float64, some e)
  | .ok rows =>
    let w := rows.foldl (fun _ r => scanNullFloat64 r) NullFloat64.zero
    (roundGo (w.float64 * 100) / 100, none)

/-- C3: the claim states that for GetProfit, GetProfitByThreadID and
GetThreadAmount a NULL numeric scalar decodes to exactly 0.0 with no error.
This holds for GetProfitByThreadID (conjunct 1) and GetThreadAmount
(conjunct 2), which scan into sql.NullFloat64 wrappers.  It fails for
GetProfit: the wrappers it declares for NULL handling are not the scan
targets, the plain float64 named returns are, so a row of NULLs leaves the
values at 0 but makes the scan return the NULL-conversion error to the
caller (conjunct 3), contradicting the stated no-error decoding. -/
theorem GetProfit_null_scan_error :
    (GetProfitByThreadID (.ok [(none, none)]) = (0, 0, none)) ∧
    (GetThreadAmount (.ok [none]) = (0, none)) ∧
    (GetProfit (.ok [(none, none, none)]) =
      (0, 0, 0, some nullToFloat64Err)) := by
  refine ⟨?_, ?_, ?_⟩
  · rw [GetProfitByThreadID]
    simp only [List.foldl_cons, List.foldl_nil, scanNullFloat64]
    norm_num
  · rw [GetThreadAmount]
    simp only [List.foldl_cons, List.foldl_nil, scanNullFloat64]
    norm_num [roundGo]
  · rw [GetProfit]
    simp only [List.foldl_cons, List.foldl_nil, scanFloat3]
    norm_num

/-- C7: for the percentage-returning operations GetProfit and
GetProfitByThreadID, the caller-visible percentage equals the stored
fraction multiplied by 100, and the other returned scalars are not scaled.
Conjuncts 1 and 2 state this for an arbitrary final row (earlier rows are
overwritten by the loop); conjunct 3 checks the claimed instance: a stored
fraction 0.0532 is returned as 5.32. -/
theorem profit_percentage_scaling :
    (∀ (rows : List (Option ℚ × Option ℚ × Option ℚ)) (p pn pct : ℚ),
      GetProfit (.ok (rows ++ [(some p, some pn, some pct)])) =
        (p, pn, pct * 100, none)) ∧
    (∀ (rows : List (Option ℚ × Option ℚ)) (f pct : ℚ),
      GetProfitByThreadID (.ok (rows ++ [(some f, some pct)])) =
        (f, pct * 100, none)) ∧
    (GetProfit (.ok [(some 40, some 38, some 0.0532)]) =
      (40, 38, 5.32, none)) := by
  refine ⟨?_, ?_, ?_⟩
  · intro rows p pn pct
    rw [GetProfit]
    simp [List.foldl_append, scanFloat3]
  · intro rows f pct
    rw [GetProfitByThreadID]
    simp [List.foldl_append, scanNullFloat64]
  · rw [GetProfit]
    simp only [List.foldl_cons, List.foldl_nil, scanFloat3]
    norm_num

/-- C10: GetThreadAmount rounds the NULL-safe dollar amount to 2 decimal
places: for every value v decoded from the final row, the returned amount
is math.Round(v times 100) divided by 100 (conjunct 1), a NULL decodes to 0
and is returned as 0 (conjunct 2), and for instance a stored 12.34567 is
returned as 12.35 (conjunct 3). -/
theorem GetThreadAmount_rounds_two_decimals :
    (∀ (rows : List (Option ℚ)) (v : ℚ),
      GetThreadAmount (.ok (rows ++ [some v])) =
        (roundGo (v * 100) / 100, none)) ∧
    (∀ (rows : List (Option ℚ)),
      GetThreadAmount (.ok (rows ++ [none])) = (0, none)) ∧
    (GetThreadAmount (.ok [some (1234567 / 100000)]) = (1235 / 100, none)) := by
  refine ⟨?_, ?_, ?_⟩
  · intro rows v
    rw [GetThreadAmount]
    simp [List.foldl_append, scanNullFloat64]
  · intro rows
    rw [GetThreadAmount]
    simp only [List.foldl_append, List.foldl_cons, List.foldl_nil,
      scanNullFloat64]
    norm_num [roundGo]
  · rw [GetThreadAmount]
    simp only [List.foldl_cons, List.foldl_nil, scanNullFloat64]
    norm_num [roundGo]

/-- Model of GetThreadTransactionCount (mysql.go lines 549-582).  The row
loop scans the single count row if one arrives; with no row the named
return keeps its zero value 0 and the error keeps the nil left by the
successful invocation, and the function returns both. -/
def GetThreadTransactionCount (q : Except String (List (Except String Int))) :
    Int × Option String :=
  match q with
  | .error e => (0, some e)
  | .ok rows =>
    rows.foldl
      (fun st r =>
        match r with
        | .ok v => (v, none)
        | .error e => (st.1, some e))
      (0, none)

/-- Model of GetLastOrderTransactionPrice (mysql.go lines 585-620), with the
same shape as GetThreadTransactionCount but a float64 price output whose
zero value is 0. -/
def GetLastOrderTransactionPrice (q : Except String (List (Except String ℚ))) :
    ℚ × Option String :=
  match q with
  | .error e => (0, some e)
  | .ok rows =>
    rows.foldl
      (fun st r =>
        match r with
        | .ok v => (v, none)
        | .error e => (st.1, some e))
      (0, none)

/-- Model of GetLastOrderTransactionSide (mysql.go lines 623-656), with the
same shape but a string side output whose zero value is the empty
string. -/
def GetLastOrderTransactionSide
    (q : Except String (List (Except String String))) :
    String × Option String :=
  match q with
  | .error e => ("", some e)
  | .ok rows =>
    rows.foldl
      (fun st r =>
        match r with
        | .ok v => (v, none)
        | .error e => (st.1, some e))
      ("", none)

/-- C8: when the procedure invocation succeeds but returns no rows, the
scalar-returning operations return the zero value of their output type
together with a nil error: 0 for GetThreadTransactionCount, 0.0 for
GetLastOrderTransactionPrice and the empty string for
GetLastOrderTransactionSide.  The missing row is not escalated to an
error. -/
theorem scalar_zero_value_when_no_rows :
    (GetThreadTransactionCount (.ok []) = (0, none)) ∧
    (GetLastOrderTransactionPrice (.ok []) = (0, none)) ∧
    (GetLastOrderTransactionSide (.ok []) = ("", none)) := by
  refine ⟨rfl, rfl, rfl⟩

/-- Witness for the amended C4 statement at a concrete environment. -/
theorem InitSocketConnectionPoolURI_double_slash_check :
    InitSocketConnectionPoolURI (socketEnv "user" "pass" "instance" "dbname") =
      some ("user" ++ ":" ++ "pass" ++ "@unix(//cloudsql/" ++ "instance" ++
        ")/" ++ "dbname" ++ "?parseTime=true") :=
  InitSocketConnectionPoolURI_double_slash "user" "pass" "instance" "dbname"
